import Mathlib

/-!
# BrightSync — formal model of the brightness HAL and synchronization engine

A shallow embedding, in Lean 4, of the brightness-control core of the
BrightSync repository:

* the brightness synchronization and transition engine
  (`src/main/brightness.controller.ts`),
* the monitor manager with its 500 ms enumeration cache
  (`src/main/monitor.manager.ts`),
* the native device layer: mock monitors, real monitors with WMI/DDC
  oracles, the device factory, and the N-API call boundary
  (`native/mock_monitor.cpp`, the real-monitor implementation,
  `native/monitor_factory.cpp`, `native/brightness.cc`).

JavaScript `number` arithmetic on the small integral brightness values is
modelled over `ℤ` and `ℚ` (`Math.round x` = `⌊x + 1/2⌋`); hardware reads and
writes, which the code observes only through integer results and success
booleans, are passed in as explicit oracle parameters.  Asynchronous
behaviour (stepped transitions with inter-step delays) is modelled as the
list of observable events (device writes and sleeps) a run produces.
-/

namespace BrightSync

/-- `Math.max(lo, Math.min(hi, v))` — the clamp idiom used throughout the
TypeScript and C++ sources. -/
def jclamp (lo hi v : ℤ) : ℤ := max lo (min hi v)

/-- JavaScript `Math.round`: round half toward positive infinity. -/
def jsRound (q : ℚ) : ℤ := ⌊q + 1/2⌋

/-- `BRIGHTNESS.MIN` from `src/shared/constants.ts`. -/
def BRIGHTNESS_MIN : ℤ := 0

/-- `BRIGHTNESS.MAX` from `src/shared/constants.ts`. -/
def BRIGHTNESS_MAX : ℤ := 100

/-- `BRIGHTNESS_TRANSITION.STEP_SIZE` from `src/shared/constants.ts`. -/
def STEP_SIZE : ℕ := 2

/-- `BRIGHTNESS_TRANSITION.STEP_DELAY_MS` from `src/shared/constants.ts`. -/
def STEP_DELAY_MS : ℕ := 10

/-- A monitor record as returned across the call boundary
(`Monitor` in `src/shared/types.ts`). -/
structure Monitor where
  id : String
  name : String
  type_ : String
  min : ℤ
  max : ℤ
  current : ℤ
  deriving DecidableEq, Repr

/-- Observable actions of a stepped brightness transition: a device write,
or a suspension of the given number of milliseconds. -/
inductive TransitionEvent where
  | write (v : ℤ)
  | sleep (ms : ℕ)
  deriving DecidableEq, Repr

/-- `steps = Math.ceil(Math.abs(difference) / STEP_SIZE)` in
`BrightnessController.setWithTransition`. -/
def transitionSteps (currentValue targetValue : ℤ) : ℕ :=
  (⌈(((targetValue - currentValue).natAbs : ℚ)) / (STEP_SIZE : ℚ)⌉).toNat

/-- The loop body of `setWithTransition`: `remaining` iterations are left,
`cur` is the accumulating (exact-rational) `current`; each iteration adds
`stepValue`, writes the rounded value and, except after the last
iteration, sleeps for `STEP_DELAY_MS`. -/
def transitionLoop (stepValue : ℚ) : ℕ → ℚ → List TransitionEvent
  | 0, _ => []
  | n + 1, cur =>
    let cur2 := cur + stepValue
    TransitionEvent.write (jsRound cur2) ::
      (if n = 0 then []
       else TransitionEvent.sleep STEP_DELAY_MS :: transitionLoop stepValue n cur2)

/-- Event trace of `BrightnessController.setWithTransition(id, currentValue,
targetValue)` (overlap guard handled separately by the callers below):
if `steps = 0` it returns immediately, otherwise it runs the stepped loop
and finishes with an unconditional write of exactly `targetValue`. -/
def setWithTransitionEvents (currentValue targetValue : ℤ) : List TransitionEvent :=
  let steps := transitionSteps currentValue targetValue
  if steps = 0 then []
  else
    transitionLoop (((targetValue - currentValue : ℤ) : ℚ) / (steps : ℚ)) steps
        ((currentValue : ℤ) : ℚ)
      ++ [TransitionEvent.write targetValue]

/-- Interleave a sleep of `STEP_DELAY_MS` between consecutive writes of a
list of values (delay after every write except the last). -/
def interWrites : List ℤ → List TransitionEvent
  | [] => []
  | [v] => [TransitionEvent.write v]
  | v :: w :: rest =>
    TransitionEvent.write v :: TransitionEvent.sleep STEP_DELAY_MS ::
      interWrites (w :: rest)

/-- The event trace exactly as the specification describes the stepped
transition: `steps = ceil(|to - from| / 2)` intermediate writes, the i-th
(1-based) being `round(from + i * (to - from) / steps)`, separated by fixed
10 ms delays with none after the final step, then an unconditional final
write of `to`; nothing at all when `steps = 0`. -/
def specTransitionEvents (currentValue targetValue : ℤ) : List TransitionEvent :=
  let steps := transitionSteps currentValue targetValue
  if steps = 0 then []
  else
    interWrites ((List.range steps).map (fun i =>
        jsRound (((currentValue : ℤ) : ℚ) +
          ((i + 1 : ℕ) : ℚ) * (((targetValue - currentValue : ℤ) : ℚ) / (steps : ℚ)))))
      ++ [TransitionEvent.write targetValue]

/-- The device-write values contained in an event trace. -/
def eventWrites (es : List TransitionEvent) : List ℤ :=
  es.filterMap (fun e => match e with
    | TransitionEvent.write v => some v
    | TransitionEvent.sleep _ => none)

/-- Net effect of one brightness write on a cached monitor record, under
always-succeeding (simulated-backend) device semantics: the manager /
native boundary clamps into `[0,100]`
(`MonitorManager.setBrightness`, `brightness.cc SetBrightness`), the
device itself clamps into its own `[min,max]`, and the cached current is
updated to the written value. -/
def applyWrite (m : Monitor) (v : ℤ) : Monitor :=
  { m with current := jclamp m.min m.max (jclamp BRIGHTNESS_MIN BRIGHTNESS_MAX v) }

/-- Replay an event trace against a monitor record (sleeps change nothing). -/
def applyEvents (m : Monitor) (es : List TransitionEvent) : Monitor :=
  es.foldl (fun acc e => match e with
    | TransitionEvent.write v => applyWrite acc v
    | TransitionEvent.sleep _ => acc) m

/-- `BrightnessController.calculateProportionalBrightness`: proportional
mapping of a master value into the monitor's own `[min,max]` range,
rounded, then clamped. -/
def calculateProportionalBrightness (masterBrightness : ℤ) (m : Monitor) : ℤ :=
  jclamp m.min m.max
    (jsRound (((m.min : ℤ) : ℚ) +
      ((m.max - m.min : ℤ) : ℚ) * (((masterBrightness : ℤ) : ℚ) / ((BRIGHTNESS_MAX : ℤ) : ℚ))))

/-- Per-monitor effect of `setMasterBrightness` once sync is enabled:
the proportional target is computed and either written through a stepped
transition (dropped when the per-id in-progress flag is set) or written
directly.  Returns the updated record and the write values issued for it. -/
def monitorRun (flags : String → Bool) (animated : Bool) (clampedTarget : ℤ)
    (m : Monitor) : Monitor × List ℤ :=
  let target := calculateProportionalBrightness clampedTarget m
  if animated then
    if flags m.id then (m, [])
    else (applyEvents m (setWithTransitionEvents m.current target),
          eventWrites (setWithTransitionEvents m.current target))
  else (applyWrite m target, [target])

/-- `BrightnessController.setMasterBrightness(targetValue, animated)` under
always-succeeding device writes: returns early when `syncEnabled` is
false; otherwise clamps the target into `[0,100]` and fans out to every
known monitor.  Result: the updated monitor records, and the device writes
performed, tagged with the monitor id. -/
def setMasterBrightnessRun (flags : String → Bool) (syncEnabled animated : Bool)
    (targetValue : ℤ) (monitors : List Monitor) :
    List Monitor × List (String × ℤ) :=
  if !syncEnabled then (monitors, [])
  else
    let clampedTarget := jclamp BRIGHTNESS_MIN BRIGHTNESS_MAX targetValue
    (monitors.map (fun m => (monitorRun flags animated clampedTarget m).1),
     monitors.flatMap (fun m =>
       ((monitorRun flags animated clampedTarget m).2).map (fun v => (m.id, v))))

/-! ## Per-device transition sessions (overlap guard)

`BrightnessController` keeps `transitionInProgress : Map<string, boolean>`.
For a single device id we track the flag, the device's (manager-clamped,
`[0,100]`-bounded) current value, and the events of the in-flight
transition that has been started but not yet completed. -/

/-- State of one device id inside the synchronization engine. -/
structure DeviceSession where
  busy : Bool
  current : ℤ
  pending : List TransitionEvent
  deriving DecidableEq, Repr

/-- A quiescent session: no transition in progress. -/
def initSession (current : ℤ) : DeviceSession :=
  { busy := false, current := current, pending := [] }

/-- Replay an event trace against a plain `[0,100]`-bounded current value. -/
def applyEventsZ (current : ℤ) (es : List TransitionEvent) : ℤ :=
  es.foldl (fun cur e => match e with
    | TransitionEvent.write v => jclamp BRIGHTNESS_MIN BRIGHTNESS_MAX v
    | TransitionEvent.sleep _ => cur) current

/-- An animated `setDeviceBrightness`-style request arriving at the session:
the engine clamps the target into `[0,100]` and calls `setWithTransition`,
whose first action is the overlap guard — if a transition is already
flagged in progress the request is dropped silently and the state is left
untouched; otherwise the flag is set and the transition's events are
scheduled. -/
def requestAnimated (s : DeviceSession) (targetValue : ℤ) : DeviceSession :=
  let clampedTarget := jclamp BRIGHTNESS_MIN BRIGHTNESS_MAX targetValue
  if s.busy then s
  else { busy := true, current := s.current,
         pending := setWithTransitionEvents s.current clampedTarget }

/-- The in-flight transition runs to completion: all pending events are
applied, and the `finally` block clears the in-progress flag. -/
def completeTransition (s : DeviceSession) : DeviceSession :=
  { busy := false, current := applyEventsZ s.current s.pending, pending := [] }

/-! ## MonitorManager: enumeration cache and cached-record updates -/

/-- `MonitorManager`'s mutable state: the cached monitor list and the
timestamp of the last refresh. -/
structure ManagerState where
  monitors : List Monitor
  lastUpdate : ℤ
  deriving DecidableEq, Repr

/-- `cacheTimeout = 500` ms in `MonitorManager`. -/
def cacheTimeout : ℤ := 500

/-- `MonitorManager.getMonitors(forceRefresh)` at time `now`, with the
factory/OS enumeration result passed in as `factory`.  Returns the list
handed to the caller, the new manager state, and whether the enumeration
was invoked. -/
def getMonitorsRun (s : ManagerState) (now : ℤ) (factory : List Monitor)
    (forceRefresh : Bool) : List Monitor × ManagerState × Bool :=
  if !forceRefresh && decide (0 < s.monitors.length)
      && decide (now - s.lastUpdate < cacheTimeout) then
    (s.monitors, s, false)
  else
    (factory, { monitors := factory, lastUpdate := now }, true)

/-- Update the first record with the given id (the `find`-then-mutate in
`MonitorManager.setBrightness`). -/
def updateFirst (ms : List Monitor) (mid : String) (v : ℤ) : List Monitor :=
  match ms with
  | [] => []
  | m :: rest =>
    if m.id == mid then { m with current := v } :: rest
    else m :: updateFirst rest mid v

/-- `MonitorManager.setBrightness(monitorId, value)`: clamps into `[0,100]`,
issues the native write (its success is the oracle `addonOk`; a thrown
native error is caught and behaves like `false`), and only on success
updates the cached record of that monitor to the clamped value. -/
def managerSetBrightness (addonOk : Bool) (s : ManagerState) (monitorId : String)
    (value : ℤ) : Bool × ManagerState :=
  let clampedValue := jclamp BRIGHTNESS_MIN BRIGHTNESS_MAX value
  if addonOk then
    (true, { s with monitors := updateFirst s.monitors monitorId clampedValue })
  else (false, s)

/-- `MonitorManager.getBrightness(monitorId)`: the native result (or thrown
error) is the oracle; a non-negative value is returned, anything else is
re-thrown as an error. -/
def managerGetBrightness (addonResult : Except String ℤ) : Except String ℤ :=
  match addonResult with
  | Except.error e => Except.error e
  | Except.ok b => if b < 0 then Except.error "Failed to get brightness" else Except.ok b

/-- `BrightnessController.setMonitorBrightness(monitorId, targetValue,
animated)`: clamps the target, reads the current brightness (returning
`false` if that read throws), then performs the direct write or the
stepped transition — whose own success (`writeOk`) is awaited but
discarded — and returns `true`.  Result: the returned boolean and the
write values issued. -/
def setMonitorBrightnessRun (addonRead : Except String ℤ) (writeOk : Bool)
    (animated : Bool) (targetValue : ℤ) : Bool × List ℤ :=
  let clampedTarget := jclamp BRIGHTNESS_MIN BRIGHTNESS_MAX targetValue
  match managerGetBrightness addonRead with
  | Except.error _ => (false, [])
  | Except.ok currentBrightness =>
    if animated then
      (true, eventWrites (setWithTransitionEvents currentBrightness clampedTarget))
    else (true, [clampedTarget])

/-! ## Native layer: mock monitors and the device factory -/

/-- `MockMonitor` construction (`mock_monitor.cpp`): bounds `0..100`,
initial brightness clamped into them. -/
def mkMockMonitor (id name type_ : String) (initialBrightness : ℤ) : Monitor :=
  { id := id, name := name, type_ := type_, min := 0, max := 100,
    current := jclamp 0 100 initialBrightness }

/-- `CreateMockMonitors` (`monitor_factory.cpp`): one internal monitor
followed by two external monitors, each initialized to brightness 50. -/
def createMockMonitors : List Monitor :=
  [ mkMockMonitor "mock_internal_0" "Mock Internal Display" "internal" 50,
    mkMockMonitor "mock_external_0" "Mock External Display 1" "external" 50,
    mkMockMonitor "mock_external_1" "Mock External Display 2" "external" 50 ]

/-- `CreateMonitors(useMock)` (`monitor_factory.cpp`): the simulated fleet,
or the result of real OS enumeration (passed in as `realMonitors`). -/
def createMonitors (useMock : Bool) (realMonitors : List Monitor) : List Monitor :=
  if useMock then createMockMonitors else realMonitors

/-! ## Native layer: real monitors with hardware oracles

`RealMonitor` talks to hardware through `GetInternalBrightnessWMI` /
`GetExternalBrightnessDDC` (integer results, `-1` meaning failure) and
`SetInternalBrightnessWMI` / `SetExternalBrightnessDDC` (success
booleans).  Those four outcomes are the oracle parameters below. -/

/-- A `RealMonitor` object (`real_monitor.h`): identity, protocol capability
flags, bounds and the best-known cached brightness. -/
structure RealMonitorState where
  id : String
  name : String
  type_ : String
  supportsWMI : Bool
  supportsDDC : Bool
  min : ℤ
  max : ℤ
  current : ℤ
  deriving DecidableEq, Repr

/-- `RealMonitor::GetBrightness`: try the live protocol read for the
device's kind; a non-negative result updates the cached value and is
returned; otherwise the best-known cached value is returned. -/
def realGetBrightness (wmiRead ddcRead : ℤ) (m : RealMonitorState) :
    ℤ × RealMonitorState :=
  if m.type_ == "internal" && m.supportsWMI then
    if 0 ≤ wmiRead then (wmiRead, { m with current := wmiRead }) else (m.current, m)
  else if m.type_ == "external" && m.supportsDDC then
    if 0 ≤ ddcRead then (ddcRead, { m with current := ddcRead }) else (m.current, m)
  else (m.current, m)

/-- `RealMonitor` constructor: fields start at `min = 0`, `max = 100`,
`current = 50`, then a live read is attempted and, if non-negative,
stored as the current value. -/
def mkRealMonitor (id name type_ : String) (supportsWMI supportsDDC : Bool)
    (wmiRead ddcRead : ℤ) : RealMonitorState :=
  let m0 : RealMonitorState :=
    { id := id, name := name, type_ := type_, supportsWMI := supportsWMI,
      supportsDDC := supportsDDC, min := 0, max := 100, current := 50 }
  let p := realGetBrightness wmiRead ddcRead m0
  if 0 ≤ p.1 then { p.2 with current := p.1 } else p.2

/-- `RealMonitor::SetBrightness`: clamp into `[min,max]`, attempt the
protocol write for the device's kind, and update the cached value only on
success.  Returns (success, whether a hardware write was attempted,
resulting state). -/
def realSetBrightness (wmiWriteOk ddcWriteOk : Bool) (value : ℤ)
    (m : RealMonitorState) : Bool × Bool × RealMonitorState :=
  let clamped := jclamp m.min m.max value
  if m.type_ == "internal" && m.supportsWMI then
    (wmiWriteOk, true, if wmiWriteOk then { m with current := clamped } else m)
  else if m.type_ == "external" && m.supportsDDC then
    (ddcWriteOk, true, if ddcWriteOk then { m with current := clamped } else m)
  else (false, false, m)

/-- `RealMonitor::IsControllable`. -/
def isControllable (m : RealMonitorState) : Bool :=
  (m.type_ == "internal" && m.supportsWMI) || (m.type_ == "external" && m.supportsDDC)

/-- `GetExternalBrightnessForInit` (`monitor_factory.cpp`): probe an
external output by constructing a temporary `RealMonitor` with DDC support
assumed and reading its brightness. -/
def getExternalBrightnessForInit (wmiRead ddcRead : ℤ) : ℤ :=
  (realGetBrightness wmiRead ddcRead
    (mkRealMonitor "temp" "temp" "external" false true wmiRead ddcRead)).1

/-- The external branch of `MonitorEnumProc` (`monitor_factory.cpp`):
DDC/CI support is declared when the construction-time probe reports a
non-negative brightness, and the device is built with that flag. -/
def enumExternalMonitor (id name : String) (wmiRead ddcRead : ℤ) : RealMonitorState :=
  let supportsDDC := decide (0 ≤ getExternalBrightnessForInit wmiRead ddcRead)
  mkRealMonitor id name "external" false supportsDDC wmiRead ddcRead

/-! ## Native layer: the N-API call boundary (`brightness.cc`)

`Napi::Error::...ThrowAsJavaScriptException()` leaves a pending JavaScript
exception; whatever the C++ handler then returns is superseded by the
throw at the JavaScript call site.  The boundary is therefore modelled as
`Except String _`: `Except.error` is a thrown exception, `Except.ok` a
value actually returned to the caller. -/

/-- A cached `MonitorInfo` entry of `brightness.cc`. -/
structure MonitorInfo where
  id : String
  name : String
  type_ : String
  min : ℤ
  max : ℤ
  current : ℤ
  supportsWMI : Bool
  supportsDDC : Bool
  deriving DecidableEq, Repr

/-- `FindMonitorById`: first cache entry with the given id. -/
def findMonitorById (monitorId : String) (cache : List MonitorInfo) :
    Option MonitorInfo :=
  cache.find? (fun m => m.id == monitorId)

/-- Update the first cache entry with the given id to the given current
value (the in-place `monitor->current = ...` of `brightness.cc`). -/
def updateInfoFirst (ms : List MonitorInfo) (mid : String) (v : ℤ) :
    List MonitorInfo :=
  match ms with
  | [] => []
  | m :: rest =>
    if m.id == mid then { m with current := v } :: rest
    else m :: updateInfoFirst rest mid v

/-- N-API `GetBrightness` (`brightness.cc`): an unknown id throws
`Monitor not found: <id>`; for a found monitor the protocol read for its
kind is attempted (`-1` when no protocol applies or the read fails), a
non-negative result is stored in the cache, and the value — possibly the
`-1` sentinel — is returned. -/
def napiGetBrightness (wmiRead ddcRead : ℤ) (cache : List MonitorInfo)
    (monitorId : String) : Except String (ℤ × List MonitorInfo) :=
  match findMonitorById monitorId cache with
  | none => Except.error ("Monitor not found: " ++ monitorId)
  | some m =>
    let brightness : ℤ :=
      if m.type_ == "internal" && m.supportsWMI then wmiRead
      else if m.type_ == "external" && m.supportsDDC then ddcRead
      else -1
    if 0 ≤ brightness then
      Except.ok (brightness, updateInfoFirst cache monitorId brightness)
    else Except.ok (brightness, cache)

/-- N-API `SetBrightness` (`brightness.cc`): clamps into `[0,100]`; an
unknown id throws `Monitor not found: <id>`; otherwise the protocol write
for the monitor's kind is attempted (`false` when no protocol applies),
the cached current is updated only on success, and the success boolean is
returned. -/
def napiSetBrightness (wmiWriteOk ddcWriteOk : Bool) (cache : List MonitorInfo)
    (monitorId : String) (value : ℤ) : Except String (Bool × List MonitorInfo) :=
  let brightness := jclamp 0 100 value
  match findMonitorById monitorId cache with
  | none => Except.error ("Monitor not found: " ++ monitorId)
  | some m =>
    let success : Bool :=
      if m.type_ == "internal" && m.supportsWMI then wmiWriteOk
      else if m.type_ == "external" && m.supportsDDC then ddcWriteOk
      else false
    if success then
      Except.ok (true, updateInfoFirst cache monitorId brightness)
    else Except.ok (false, cache)

/-! ## Concrete sample states used to exercise the theorems -/

/-- A sample cached record with the full `0..100` range. -/
def demoMonitor : Monitor :=
  { id := "mock_internal_0", name := "Mock Internal Display", type_ := "internal",
    min := 0, max := 100, current := 50 }

/-- A sample cached record with a restricted `45..55` range. -/
def demoNarrowMonitor : Monitor :=
  { id := "narrow_0", name := "Narrow Display", type_ := "external",
    min := 45, max := 55, current := 50 }

/-- A sample internal `RealMonitor` with WMI support. -/
def demoRealInternal : RealMonitorState :=
  { id := "internal_0", name := "Internal Display", type_ := "internal",
    supportsWMI := true, supportsDDC := false, min := 0, max := 100, current := 50 }

/-- A sample `brightness.cc` cache with one WMI-capable internal monitor. -/
def demoInfoCache : List MonitorInfo :=
  [ { id := "internal_0", name := "Internal Display", type_ := "internal",
      min := 0, max := 100, current := 50, supportsWMI := true, supportsDDC := false } ]

/-! ## Basic lemmas about clamping and rounding -/

lemma jsRound_intCast (n : ℤ) : jsRound ((n : ℤ) : ℚ) = n := by
  unfold jsRound
  rw [show ((n : ℤ) : ℚ) + 1/2 = (1 : ℚ)/2 + n by ring, Int.floor_add_int]
  norm_num

lemma jclamp_le_left (lo hi v : ℤ) : lo ≤ jclamp lo hi v := le_max_left _ _

lemma jclamp_le_right (lo hi v : ℤ) (h : lo ≤ hi) : jclamp lo hi v ≤ hi :=
  max_le h (min_le_left _ _)

lemma jclamp_of_le (lo hi v : ℤ) (h1 : lo ≤ v) (h2 : v ≤ hi) :
    jclamp lo hi v = v := by
  unfold jclamp
  rw [min_eq_right h2, max_eq_right h1]

lemma calculateProportionalBrightness_mem (t : ℤ) (m : Monitor)
    (h : m.min ≤ m.max) :
    m.min ≤ calculateProportionalBrightness t m ∧
      calculateProportionalBrightness t m ≤ m.max :=
  ⟨jclamp_le_left _ _ _, jclamp_le_right _ _ _ h⟩

lemma calculateProportionalBrightness_zero (m : Monitor) (h : m.min ≤ m.max) :
    calculateProportionalBrightness 0 m = m.min := by
  unfold calculateProportionalBrightness
  norm_num [jsRound_intCast, jclamp_of_le _ _ _ (le_refl m.min) h]

lemma calculateProportionalBrightness_hundred (m : Monitor) (h : m.min ≤ m.max) :
    calculateProportionalBrightness 100 m = m.max := by
  unfold calculateProportionalBrightness
  have h1 : ((m.min : ℤ) : ℚ) +
      ((m.max - m.min : ℤ) : ℚ) * (((100 : ℤ) : ℚ) / ((BRIGHTNESS_MAX : ℤ) : ℚ)) =
      ((m.max : ℤ) : ℚ) := by
    unfold BRIGHTNESS_MAX
    push_cast
    ring
  rw [h1, jsRound_intCast, jclamp_of_le _ _ _ h (le_refl m.max)]

/-! ## The transition-step count -/

lemma transitionSteps_eq (c t : ℤ) :
    transitionSteps c t = ((t - c).natAbs + 1) / 2 := by
  unfold transitionSteps STEP_SIZE
  set n := (t - c).natAbs with hn
  set k := (n + 1) / 2 with hk
  have hnk1 : n ≤ 2 * k := by omega
  have hnk2 : 2 * k ≤ n + 1 := by omega
  have hcast : ((2 : ℕ) : ℚ) = (2 : ℚ) := by norm_num
  rw [hcast]
  have hceil : ⌈((n : ℚ)) / (2 : ℚ)⌉ = (k : ℤ) := by
    rw [Int.ceil_eq_iff]
    constructor
    · push_cast
      rw [lt_div_iff (show (0 : ℚ) < 2 by norm_num)]
      have hq : 2 * (k : ℚ) ≤ (n : ℚ) + 1 := by exact_mod_cast hnk2
      linarith
    · push_cast
      rw [div_le_iff₀ (show (0 : ℚ) < 2 by norm_num)]
      have hq : (n : ℚ) ≤ 2 * (k : ℚ) := by exact_mod_cast hnk1
      linarith
  rw [hceil]
  simp

lemma transitionSteps_eq_zero_iff (c t : ℤ) :
    transitionSteps c t = 0 ↔ c = t := by
  rw [transitionSteps_eq]
  constructor
  · intro h
    have : (t - c).natAbs = 0 := by omega
    have := Int.natAbs_eq_zero.mp this
    omega
  · intro h
    subst h
    simp

/-! ## Closed form of the stepped-transition loop

The loop advances an accumulator `cur := cur + stepValue` and writes the
rounded accumulator; the closed form says the i-th write (0-based `i`)
rounds `cur₀ + (i+1) * stepValue`. -/

lemma transitionLoop_eq (stepValue : ℚ) :
    ∀ (n : ℕ) (cur : ℚ),
      transitionLoop stepValue n cur =
        interWrites ((List.range n).map
          (fun i => jsRound (cur + ((i + 1 : ℕ) : ℚ) * stepValue))) := by
  intro n
  induction n with
  | zero => intro cur; rfl
  | succ m ih =>
    intro cur
    rw [List.range_succ_eq_map, List.map_cons, List.map_map]
    have hhead : jsRound (cur + ((0 + 1 : ℕ) : ℚ) * stepValue) =
        jsRound (cur + stepValue) := by
      norm_num
    rw [hhead]
    have hmap : (List.range m).map
          ((fun i => jsRound (cur + ((i + 1 : ℕ) : ℚ) * stepValue)) ∘ Nat.succ) =
        (List.range m).map
          (fun i => jsRound ((cur + stepValue) + ((i + 1 : ℕ) : ℚ) * stepValue)) := by
      apply List.map_congr_left
      intro i _
      simp only [Function.comp_apply]
      congr 1
      push_cast
      ring
    rw [hmap]
    show TransitionEvent.write (jsRound (cur + stepValue)) ::
        (if m = 0 then []
         else TransitionEvent.sleep STEP_DELAY_MS ::
           transitionLoop stepValue m (cur + stepValue)) = _
    cases m with
    | zero => simp [interWrites]
    | succ p =>
      rw [if_neg (Nat.succ_ne_zero p), ih (cur + stepValue)]
      rw [List.range_succ_eq_map, List.map_cons]
      rfl

/-- The code's transition trace coincides with the closed-form trace. -/
lemma setWithTransitionEvents_eq_spec (c t : ℤ) :
    setWithTransitionEvents c t = specTransitionEvents c t := by
  unfold setWithTransitionEvents specTransitionEvents
  by_cases hs : transitionSteps c t = 0
  · simp [hs]
  · rw [if_neg hs, if_neg hs, transitionLoop_eq]

/-! ## Replaying traces against cached records -/

lemma applyWrite_id (m : Monitor) (v : ℤ) : (applyWrite m v).id = m.id := rfl

lemma applyWrite_min (m : Monitor) (v : ℤ) : (applyWrite m v).min = m.min := rfl

lemma applyWrite_max (m : Monitor) (v : ℤ) : (applyWrite m v).max = m.max := rfl

lemma applyEvents_append (m : Monitor) (es fs : List TransitionEvent) :
    applyEvents m (es ++ fs) = applyEvents (applyEvents m es) fs := by
  unfold applyEvents
  exact List.foldl_append _ _ _ _

lemma applyEvents_id (m : Monitor) (es : List TransitionEvent) :
    (applyEvents m es).id = m.id := by
  induction es generalizing m with
  | nil => rfl
  | cons e rest ih =>
    cases e with
    | write v => exact (ih (applyWrite m v)).trans (applyWrite_id m v)
    | sleep ms => exact ih m

lemma applyEvents_min (m : Monitor) (es : List TransitionEvent) :
    (applyEvents m es).min = m.min := by
  induction es generalizing m with
  | nil => rfl
  | cons e rest ih =>
    cases e with
    | write v => exact (ih (applyWrite m v)).trans (applyWrite_min m v)
    | sleep ms => exact ih m

lemma applyEvents_max (m : Monitor) (es : List TransitionEvent) :
    (applyEvents m es).max = m.max := by
  induction es generalizing m with
  | nil => rfl
  | cons e rest ih =>
    cases e with
    | write v => exact (ih (applyWrite m v)).trans (applyWrite_max m v)
    | sleep ms => exact ih m

/-- Replaying a full transition trace pins the record's current exactly to
the target, provided the target respects the record's bounds and the
global `[0,100]` scale. -/
lemma applyEvents_transition (m : Monitor) (target : ℤ)
    (h0 : 0 ≤ target) (h100 : target ≤ 100)
    (hmin : m.min ≤ target) (hmax : target ≤ m.max) :
    (applyEvents m (setWithTransitionEvents m.current target)).current = target := by
  by_cases hs : transitionSteps m.current target = 0
  · have hct : m.current = target := (transitionSteps_eq_zero_iff _ _).mp hs
    unfold setWithTransitionEvents
    rw [if_pos hs]
    exact hct
  · unfold setWithTransitionEvents
    rw [if_neg hs, applyEvents_append]
    set m1 := applyEvents m
      (transitionLoop (((target - m.current : ℤ) : ℚ) /
        ((transitionSteps m.current target : ℕ) : ℚ))
        (transitionSteps m.current target) ((m.current : ℤ) : ℚ)) with hm1
    show (applyWrite m1 target).current = target
    unfold applyWrite BRIGHTNESS_MIN BRIGHTNESS_MAX
    rw [jclamp_of_le 0 100 target h0 h100]
    rw [hm1, applyEvents_min, applyEvents_max]
    exact jclamp_of_le _ _ _ hmin hmax

/-- The `[0,100]`-bounded analogue for plain current values. -/
lemma applyEventsZ_transition (c target : ℤ)
    (h0 : 0 ≤ target) (h100 : target ≤ 100) :
    applyEventsZ c (setWithTransitionEvents c target) = target := by
  by_cases hs : transitionSteps c target = 0
  · have hct : c = target := (transitionSteps_eq_zero_iff _ _).mp hs
    unfold setWithTransitionEvents
    rw [if_pos hs]
    exact hct
  · unfold setWithTransitionEvents
    rw [if_neg hs]
    unfold applyEventsZ
    rw [List.foldl_append]
    show jclamp BRIGHTNESS_MIN BRIGHTNESS_MAX target = target
    unfold BRIGHTNESS_MIN BRIGHTNESS_MAX
    exact jclamp_of_le 0 100 target h0 h100

/-! ## Write values of a trace; session-level helpers -/

lemma eventWrites_interWrites : ∀ vs : List ℤ, eventWrites (interWrites vs) = vs
  | [] => rfl
  | [_] => rfl
  | v :: w :: rest => by
    show eventWrites (TransitionEvent.write v :: TransitionEvent.sleep STEP_DELAY_MS ::
      interWrites (w :: rest)) = v :: w :: rest
    unfold eventWrites
    simp only [List.filterMap_cons]
    have ih := eventWrites_interWrites (w :: rest)
    unfold eventWrites at ih
    rw [ih]

lemma requestAnimated_busy (s : DeviceSession) (h : s.busy = true) (t : ℤ) :
    requestAnimated s t = s := by
  unfold requestAnimated
  rw [h]
  simp

lemma requestAnimated_free (s : DeviceSession) (h : s.busy = false) (t : ℤ) :
    requestAnimated s t =
      { busy := true, current := s.current,
        pending := setWithTransitionEvents s.current
          (jclamp BRIGHTNESS_MIN BRIGHTNESS_MAX t) } := by
  unfold requestAnimated
  rw [h]
  simp

/-- Per-monitor core of the master-brightness fan-out: when no transition is
in flight for the monitor's id, its record is driven exactly to the
proportional target. -/
lemma monitorRun_current (flags : String → Bool) (animated : Bool) (ct : ℤ)
    (m : Monitor) (hflag : flags m.id = false) (h0 : 0 ≤ m.min)
    (hmm : m.min ≤ m.max) (h100 : m.max ≤ 100) :
    (monitorRun flags animated ct m).1.current =
        calculateProportionalBrightness ct m ∧
      (monitorRun flags animated ct m).1.id = m.id := by
  have hb := calculateProportionalBrightness_mem ct m hmm
  have ht0 : 0 ≤ calculateProportionalBrightness ct m := le_trans h0 hb.1
  have ht100 : calculateProportionalBrightness ct m ≤ 100 := le_trans hb.2 h100
  unfold monitorRun
  cases animated with
  | false =>
    constructor
    · show (applyWrite m (calculateProportionalBrightness ct m)).current = _
      unfold applyWrite BRIGHTNESS_MIN BRIGHTNESS_MAX
      rw [jclamp_of_le 0 100 _ ht0 ht100, jclamp_of_le _ _ _ hb.1 hb.2]
    · exact applyWrite_id m _
  | true =>
    rw [if_pos rfl, hflag]
    simp only [Bool.false_eq_true, if_false]
    exact ⟨applyEvents_transition m _ ht0 ht100 hb.1 hb.2, applyEvents_id m _⟩

/-! ## Claim theorems -/

/-- C1: for every integer master target `t` and every currently known
device `m` (bounds within the canonical `0..100` scale, no transition in
flight for it), `setMasterBrightness t` with sync enabled clamps `t` into
`[0,100]` and drives the device's current brightness to
`clamp(round(min + (max - min) * (t' / 100)), min, max)` where `t'` is
the clamped target; in particular `t = -999999` yields exactly `min`,
`t = 999999` yields exactly `max`, and the result always lies in
`[min, max]`. -/
theorem masterBrightness_proportional (flags : String → Bool) (animated : Bool)
    (t : ℤ) (ms : List Monitor) (m : Monitor) (hmem : m ∈ ms)
    (hflag : flags m.id = false) (h0 : 0 ≤ m.min) (hmm : m.min ≤ m.max)
    (h100 : m.max ≤ 100) :
    ∃ m' ∈ (setMasterBrightnessRun flags true animated t ms).1,
      m'.id = m.id ∧
      m'.current = calculateProportionalBrightness (jclamp 0 100 t) m ∧
      (t = -999999 → m'.current = m.min) ∧
      (t = 999999 → m'.current = m.max) ∧
      m.min ≤ m'.current ∧ m'.current ≤ m.max := by
  have hrun := monitorRun_current flags animated
    (jclamp BRIGHTNESS_MIN BRIGHTNESS_MAX t) m hflag h0 hmm h100
  have hbounds := calculateProportionalBrightness_mem
    (jclamp BRIGHTNESS_MIN BRIGHTNESS_MAX t) m hmm
  refine ⟨(monitorRun flags animated (jclamp BRIGHTNESS_MIN BRIGHTNESS_MAX t) m).1,
    ?_, hrun.2, ?_, ?_, ?_, ?_, ?_⟩
  · unfold setMasterBrightnessRun
    simp only [Bool.not_true, Bool.false_eq_true, if_false]
    exact List.mem_map_of_mem _ hmem
  · exact hrun.1
  · intro ht
    subst ht
    rw [hrun.1]
    have hc : jclamp BRIGHTNESS_MIN BRIGHTNESS_MAX (-999999 : ℤ) = 0 := by decide
    rw [hc]
    exact calculateProportionalBrightness_zero m hmm
  · intro ht
    subst ht
    rw [hrun.1]
    have hc : jclamp BRIGHTNESS_MIN BRIGHTNESS_MAX (999999 : ℤ) = 100 := by decide
    rw [hc]
    exact calculateProportionalBrightness_hundred m hmm
  · rw [hrun.1]
    exact hbounds.1
  · rw [hrun.1]
    exact hbounds.2

/-- Witness for C1: a device restricted to `45..55` and master target 30. -/
theorem masterBrightness_proportional_witness :
    ∃ m' ∈ (setMasterBrightnessRun (fun _ => false) true true 30
        [demoNarrowMonitor]).1,
      m'.id = demoNarrowMonitor.id ∧
      m'.current = calculateProportionalBrightness
        (jclamp 0 100 30) demoNarrowMonitor ∧
      ((30 : ℤ) = -999999 → m'.current = demoNarrowMonitor.min) ∧
      ((30 : ℤ) = 999999 → m'.current = demoNarrowMonitor.max) ∧
      demoNarrowMonitor.min ≤ m'.current ∧ m'.current ≤ demoNarrowMonitor.max :=
  masterBrightness_proportional (fun _ => false) true 30 [demoNarrowMonitor]
    demoNarrowMonitor (List.mem_singleton.mpr rfl) rfl (by decide) (by decide)
    (by decide)

/-- C2: a stepped transition from `c` to `t` produces exactly
`steps = ceil(|t - c| / 2)` intermediate writes, the i-th (1-based)
writing `round(c + i * (t - c) / steps)`, with a 10 ms sleep between
consecutive steps but none after the last, followed by an unconditional
final write of exactly `t`; when `steps = 0` — equivalently `c = t` — no
device write is performed at all, and otherwise `steps + 1` writes are
performed in total. -/
theorem transition_trace_spec (c t : ℤ) :
    setWithTransitionEvents c t = specTransitionEvents c t ∧
      (transitionSteps c t = 0 ↔ c = t) ∧
      (eventWrites (setWithTransitionEvents c t)).length =
        (if c = t then 0 else transitionSteps c t + 1) := by
  refine ⟨setWithTransitionEvents_eq_spec c t, transitionSteps_eq_zero_iff c t, ?_⟩
  rw [setWithTransitionEvents_eq_spec]
  unfold specTransitionEvents
  by_cases hct : c = t
  · rw [if_pos ((transitionSteps_eq_zero_iff c t).mpr hct), if_pos hct]
    rfl
  · have hs : transitionSteps c t ≠ 0 :=
      fun h => hct ((transitionSteps_eq_zero_iff c t).mp h)
    rw [if_neg hs, if_neg hct]
    unfold eventWrites
    rw [List.filterMap_append]
    have h1 := eventWrites_interWrites ((List.range (transitionSteps c t)).map
      (fun i => jsRound (((c : ℤ) : ℚ) +
        ((i + 1 : ℕ) : ℚ) * (((t - c : ℤ) : ℚ) / ((transitionSteps c t : ℕ) : ℚ)))))
    unfold eventWrites at h1
    rw [h1]
    simp

/-- C3: a second animated request for the same device arriving while the
per-id in-progress flag is set is dropped silently — the session state,
including the scheduled writes, is completely unchanged — the in-flight
transition runs to completion, the device ends at the first request's
target (not the second's), and the flag is clear afterwards. -/
theorem transition_overlap_guard (c t1 t2 : ℤ) (h0 : 0 ≤ t1) (h1 : t1 ≤ 100) :
    requestAnimated (requestAnimated (initSession c) t1) t2 =
        requestAnimated (initSession c) t1 ∧
      (completeTransition
        (requestAnimated (requestAnimated (initSession c) t1) t2)).current = t1 ∧
      (completeTransition
        (requestAnimated (requestAnimated (initSession c) t1) t2)).busy = false ∧
      (jclamp 0 100 t2 ≠ t1 →
        (completeTransition
          (requestAnimated (requestAnimated (initSession c) t1) t2)).current ≠
          jclamp 0 100 t2) := by
  have hfree : (initSession c).busy = false := rfl
  have hs1 := requestAnimated_free (initSession c) hfree t1
  have hbusy : (requestAnimated (initSession c) t1).busy = true := by
    rw [hs1]
  have hdrop := requestAnimated_busy (requestAnimated (initSession c) t1) hbusy t2
  have hclamp : jclamp BRIGHTNESS_MIN BRIGHTNESS_MAX t1 = t1 :=
    jclamp_of_le _ _ _ h0 h1
  have hcur : (completeTransition
      (requestAnimated (requestAnimated (initSession c) t1) t2)).current = t1 := by
    rw [hdrop, hs1]
    show applyEventsZ c (setWithTransitionEvents c
      (jclamp BRIGHTNESS_MIN BRIGHTNESS_MAX t1)) = t1
    rw [hclamp]
    exact applyEventsZ_transition c t1 h0 h1
  exact ⟨hdrop, hcur, rfl, fun hne => by rw [hcur]; exact fun h => hne h.symm⟩

/-- Witness for C3: device at 0, first target 2, conflicting target 5. -/
theorem transition_overlap_guard_witness :
    requestAnimated (requestAnimated (initSession 0) 2) 5 =
        requestAnimated (initSession 0) 2 ∧
      (completeTransition
        (requestAnimated (requestAnimated (initSession 0) 2) 5)).current = 2 ∧
      (completeTransition
        (requestAnimated (requestAnimated (initSession 0) 2) 5)).busy = false ∧
      (jclamp 0 100 5 ≠ 2 →
        (completeTransition
          (requestAnimated (requestAnimated (initSession 0) 2) 5)).current ≠
          jclamp 0 100 5) :=
  transition_overlap_guard 0 2 5 (by decide) (by decide)

/-- C4: with `syncEnabled = false`, `setMasterBrightness` performs no device
write and leaves every cached monitor record unchanged, for every target
value and every flag state. -/
theorem master_noop_when_sync_disabled (flags : String → Bool) (animated : Bool)
    (t : ℤ) (ms : List Monitor) :
    setMasterBrightnessRun flags false animated t ms = (ms, []) := rfl

/-- C5: `getMonitors(forceRefresh)` with `forceRefresh = false`, a non-empty
cached list and age strictly below the 500 ms TTL returns the memoized
list unchanged without invoking enumeration; in every other case the
factory is invoked, its list and the current timestamp replace the cache,
and that fresh list is returned. -/
theorem getMonitors_cache_spec (s : ManagerState) (now : ℤ)
    (factory : List Monitor) (forceRefresh : Bool) :
    (forceRefresh = false → s.monitors ≠ [] → now - s.lastUpdate < 500 →
        getMonitorsRun s now factory forceRefresh = (s.monitors, s, false)) ∧
      (¬(forceRefresh = false ∧ s.monitors ≠ [] ∧ now - s.lastUpdate < 500) →
        getMonitorsRun s now factory forceRefresh =
          (factory, { monitors := factory, lastUpdate := now }, true)) := by
  constructor
  · intro hf hne hage
    have hlen : 0 < s.monitors.length := List.length_pos.mpr hne
    unfold getMonitorsRun cacheTimeout
    rw [if_pos]
    rw [hf]
    simp [hlen, hage]
  · intro hnot
    unfold getMonitorsRun cacheTimeout
    rw [if_neg]
    intro hcond
    apply hnot
    simp only [Bool.and_eq_true, Bool.not_eq_true', decide_eq_true_eq] at hcond
    exact ⟨hcond.1.1, List.length_pos.mp hcond.1.2, hcond.2⟩

/-- Witness for C5: both the fresh-cache hit and the expired-cache miss. -/
theorem getMonitors_cache_spec_witness :
    getMonitorsRun { monitors := [demoMonitor], lastUpdate := 1000 } 1200 [] false =
        ([demoMonitor], { monitors := [demoMonitor], lastUpdate := 1000 }, false) ∧
      getMonitorsRun { monitors := [demoMonitor], lastUpdate := 1000 } 1700 [] false =
        ([], { monitors := [], lastUpdate := 1700 }, true) :=
  ⟨(getMonitors_cache_spec { monitors := [demoMonitor], lastUpdate := 1000 }
      1200 [] false).1 rfl (by decide) (by decide),
   (getMonitors_cache_spec { monitors := [demoMonitor], lastUpdate := 1000 }
      1700 [] false).2 (by decide)⟩

/-- C6 counterexample: the simulated branch of the device factory does not
return devices with ids `sim_internal_0`, `sim_external_0`,
`sim_external_1` as the claim states — the ids differ. -/
theorem mock_ids_counterexample :
    (createMonitors true []).map Monitor.id ≠
      ["sim_internal_0", "sim_external_0", "sim_external_1"] := by
  decide

/-- C6 (amended): the simulated branch deterministically returns exactly
three devices, one internal first (id `mock_internal_0`) then two
external (ids `mock_external_0`, `mock_external_1`), each initialized to
brightness 50 with bounds `0..100`. -/
theorem mock_monitors_spec :
    createMonitors true [] =
      [ { id := "mock_internal_0", name := "Mock Internal Display",
          type_ := "internal", min := 0, max := 100, current := 50 },
        { id := "mock_external_0", name := "Mock External Display 1",
          type_ := "external", min := 0, max := 100, current := 50 },
        { id := "mock_external_1", name := "Mock External Display 2",
          type_ := "external", min := 0, max := 100, current := 50 } ] := by
  decide

/-- C7 counterexample: an unknown device id at the native call boundary is
reported as a thrown `Monitor not found` exception (the pending
JavaScript exception supersedes the C++ sentinel return), for both
`getBrightness` and `setBrightness` — not as a plain `-1`/`false`
sentinel return as the claim states. -/
theorem unknown_id_throws_counterexample :
    napiGetBrightness 50 50 demoInfoCache "ghost" =
        Except.error "Monitor not found: ghost" ∧
      napiSetBrightness true true demoInfoCache "ghost" 40 =
        Except.error "Monitor not found: ghost" :=
  ⟨rfl, rfl⟩

/-- C7 (amended): for every cache and every id not present in it, the
native `getBrightness` and `setBrightness` handlers throw
`Monitor not found: <id>` at the call boundary (the C++ code also sets
the `-1`/`false` sentinel as its return value, but the pending exception
supersedes it). -/
theorem unknown_id_error_spec (wmiRead ddcRead : ℤ) (wmiOk ddcOk : Bool)
    (cache : List MonitorInfo) (mid : String) (v : ℤ)
    (hfind : findMonitorById mid cache = none) :
    napiGetBrightness wmiRead ddcRead cache mid =
        Except.error ("Monitor not found: " ++ mid) ∧
      napiSetBrightness wmiOk ddcOk cache mid v =
        Except.error ("Monitor not found: " ++ mid) := by
  unfold napiGetBrightness napiSetBrightness
  rw [hfind]
  exact ⟨rfl, rfl⟩

/-- Witness for C7's amended theorem. -/
theorem unknown_id_error_spec_witness :
    napiGetBrightness 0 0 demoInfoCache "external_9" =
        Except.error ("Monitor not found: " ++ "external_9") ∧
      napiSetBrightness true true demoInfoCache "external_9" 7 =
        Except.error ("Monitor not found: " ++ "external_9") :=
  unknown_id_error_spec 0 0 true true demoInfoCache "external_9" 7 (by decide)

/-- C8: the code contradicts the claim that an external device is declared
controllable iff its construction-time brightness probe succeeds.  With
every live DDC/CI read failing (oracle `-1`), `RealMonitor::GetBrightness`
falls back to the cached default 50, so the factory's probe reports 50,
the device is built with `supportsDDC = true` and `IsControllable()` is
true, and a later write still attempts the hardware (second component
`true`) and fails, rather than being refused outright. -/
theorem ddc_probe_never_fails :
    getExternalBrightnessForInit (-1) (-1) = 50 ∧
      (enumExternalMonitor "monitor_00000000_0" "External Display 1"
        (-1) (-1)).supportsDDC = true ∧
      isControllable (enumExternalMonitor "monitor_00000000_0"
        "External Display 1" (-1) (-1)) = true ∧
      realSetBrightness false false 70 (enumExternalMonitor "monitor_00000000_0"
          "External Display 1" (-1) (-1)) =
        (false, true, enumExternalMonitor "monitor_00000000_0"
          "External Display 1" (-1) (-1)) := by
  decide

/-- C9: `setBrightness` is atomic with respect to the locally cached state,
at both the device layer (`RealMonitor::SetBrightness`) and the manager
layer (`MonitorManager.setBrightness`): a successful write updates the
cached current to the clamped written value, a failed write leaves the
state exactly unchanged. -/
theorem setBrightness_cache_atomic (wmiOk ddcOk : Bool) (v : ℤ)
    (m : RealMonitorState) (addonOk : Bool) (s : ManagerState) (mid : String)
    (value : ℤ) :
    ((realSetBrightness wmiOk ddcOk v m).1 = true →
        (realSetBrightness wmiOk ddcOk v m).2.2.current = jclamp m.min m.max v) ∧
      ((realSetBrightness wmiOk ddcOk v m).1 = false →
        (realSetBrightness wmiOk ddcOk v m).2.2 = m) ∧
      ((managerSetBrightness addonOk s mid value).1 = true →
        (managerSetBrightness addonOk s mid value).2.monitors =
          updateFirst s.monitors mid (jclamp 0 100 value)) ∧
      ((managerSetBrightness addonOk s mid value).1 = false →
        (managerSetBrightness addonOk s mid value).2 = s) := by
  unfold realSetBrightness managerSetBrightness BRIGHTNESS_MIN BRIGHTNESS_MAX
  refine ⟨?_, ?_, ?_, ?_⟩ <;> split_ifs <;> simp_all

/-- Witness for C9: a successful over-range internal write is clamped into
the cache; a failed manager write leaves the manager state unchanged. -/
theorem setBrightness_cache_atomic_witness :
    (realSetBrightness true false 120 demoRealInternal).2.2.current =
        jclamp demoRealInternal.min demoRealInternal.max 120 ∧
      (managerSetBrightness false { monitors := [], lastUpdate := 0 } "m" 70).2 =
        { monitors := [], lastUpdate := 0 } :=
  ⟨(setBrightness_cache_atomic true false 120 demoRealInternal false
      { monitors := [], lastUpdate := 0 } "m" 70).1 (by decide),
   (setBrightness_cache_atomic true false 120 demoRealInternal false
      { monitors := [], lastUpdate := 0 } "m" 70).2.2.2 (by decide)⟩

/-- C10: `setMonitorBrightness` returns `true` whenever the initial read of
the device's current brightness succeeds — independently of whether the
subsequent write or animated transition succeeds, whose boolean result is
discarded — and returns `false` exactly when the initial read fails. -/
theorem setMonitorBrightness_result_ignores_write (addonRead : Except String ℤ)
    (writeOk writeOk' animated : Bool) (t : ℤ) :
    (setMonitorBrightnessRun addonRead writeOk animated t).1 =
        (setMonitorBrightnessRun addonRead writeOk' animated t).1 ∧
      ((setMonitorBrightnessRun addonRead writeOk animated t).1 = true ↔
        ∃ v, managerGetBrightness addonRead = Except.ok v) ∧
      ((setMonitorBrightnessRun addonRead writeOk animated t).1 = false ↔
        ∃ e, managerGetBrightness addonRead = Except.error e) := by
  unfold setMonitorBrightnessRun
  cases h : managerGetBrightness addonRead with
  | error e =>
    simp [h]
  | ok v =>
    cases animated <;> simp [h]

end BrightSync
